import Mathlib

/-! TNS packet codec: shallow embedding and verification.

A shallow embedding of the Oracle TNS wire codec exercised by the test
fixtures in `modules/ssh.go` (`validHeaders`, `validTNSConnect`,
`validTNSAccept`, `validTNSData`, `TestTNSHeaderEncode`, `TestTNSConnect`,
`TestTNSAccept`, `TestTNSData`).  Bytes are modelled as `Nat` values below
256 in `List Nat`; all multi-byte integers are big-endian.  Fallible
decoding returns `Except CodecError`.

The codec implementation itself (header/body/NSN/version codecs and the
packet dispatcher) is not part of the sources, only its tests and fixtures
are; every `decode…`/`encode…`/`read…` definition below is modelled from
the specification (sections 3, 4 and 6) and checked against the literal
byte fixtures of the test file.
-/

deriving instance DecidableEq for Except

set_option maxRecDepth 100000

namespace TNS

/-- Modelled from the spec: the error taxonomy of section 7
(`TruncatedInput`, `InvalidLength`, `OffsetBeforeCursor`,
`MalformedVersion`), plus a variant for a bad NSN start marker. -/
inductive CodecError where
  | TruncatedInput
  | InvalidLength
  | OffsetBeforeCursor
  | MalformedVersion
  | BadNSNMarker
  deriving DecidableEq

/-- Big-endian encoding of a 16-bit value as two bytes. -/
def u16BE (n : Nat) : List Nat := [n / 256 % 256, n % 256]

/-- Big-endian encoding of a 32-bit value as four bytes. -/
def u32BE (n : Nat) : List Nat :=
  [n / 16777216 % 256, n / 65536 % 256, n / 256 % 256, n % 256]

/-- The byte at position `i` (0 when out of range). -/
def byteAt (bs : List Nat) (i : Nat) : Nat := bs.getD i 0

/-- The big-endian 16-bit value at position `i`. -/
def u16At (bs : List Nat) (i : Nat) : Nat :=
  byteAt bs i * 256 + byteAt bs (i + 1)

/-- The big-endian 32-bit value at position `i`. -/
def u32At (bs : List Nat) (i : Nat) : Nat :=
  ((byteAt bs i * 256 + byteAt bs (i + 1)) * 256 + byteAt bs (i + 2)) * 256
    + byteAt bs (i + 3)

/-- ASCII bytes of a string. -/
def strBytes (s : String) : List Nat := s.data.map Char.toNat

/-- Value of a hex digit character. -/
def hexDigit (c : Char) : Nat :=
  if 48 ≤ c.toNat ∧ c.toNat ≤ 57 then c.toNat - 48
  else if 97 ≤ c.toNat ∧ c.toNat ≤ 102 then c.toNat - 87
  else if 65 ≤ c.toNat ∧ c.toNat ≤ 70 then c.toNat - 55
  else 0

/-- Split a character list on spaces, dropping empty groups
(the shape of the `fromHex` helper of the test file). -/
def splitSpaces : List Char → List (List Char)
  | [] => [[]]
  | c :: rest =>
    if c = ' ' then [] :: splitSpaces rest
    else match splitSpaces rest with
      | g :: gs => (c :: g) :: gs
      | [] => [[c]]

/-- Hex-string to bytes, as the test file's `fromHex`: whitespace-separated
hex groups. -/
def fromHex (s : String) : List Nat :=
  ((splitSpaces s.data).filter (fun g => ¬ g.isEmpty)).map
    (fun g => g.foldl (fun a c => a * 16 + hexDigit c) 0)

/-! ## Packet header -/

/-- The fixed 8-byte TNS packet header (`TNSHeader` in the sources). -/
structure TNSHeader where
  Length : Nat
  PacketChecksum : Nat
  PType : Nat
  Flags : Nat
  HeaderChecksum : Nat
  deriving DecidableEq

/-- The packet type discriminator values of the wire-format table. -/
def PacketTypeConnect : Nat := 1
def PacketTypeAccept : Nat := 2
def PacketTypeData : Nat := 6

/-- Modelled from the spec: `TNSHeader.Encode` writes the five header
fields in declared order, big-endian (section 4.1). -/
def encodeTNSHeader (h : TNSHeader) : List Nat :=
  u16BE h.Length ++ u16BE h.PacketChecksum ++ [h.PType % 256, h.Flags % 256]
    ++ u16BE h.HeaderChecksum

/-- Modelled from the spec: `DecodeTNSHeader` reads the 8-byte header and
returns it with the remaining bytes, failing with `TruncatedInput` when
fewer than 8 bytes are available (section 4.1). -/
def decodeTNSHeader (bs : List Nat) :
    Except CodecError (TNSHeader × List Nat) :=
  match bs with
  | b0 :: b1 :: b2 :: b3 :: b4 :: b5 :: b6 :: b7 :: rest =>
    .ok ({ Length := b0 * 256 + b1, PacketChecksum := b2 * 256 + b3,
           PType := b4, Flags := b5, HeaderChecksum := b6 * 256 + b7 }, rest)
  | _ => .error .TruncatedInput

/-! ## Body types -/

/-- The Connect body (`TNSConnect` in the sources); field names and widths
follow the test fixtures (`validTNSConnect`). -/
structure TNSConnect where
  Version : Nat
  MinVersion : Nat
  GlobalServiceOptions : Nat
  SDU : Nat
  TDU : Nat
  ProtocolCharacteristics : Nat
  MaxBeforeAck : Nat
  ByteOrder : List Nat
  DataLength : Nat
  DataOffset : Nat
  MaxResponseSize : Nat
  ConnectFlags0 : Nat
  ConnectFlags1 : Nat
  CrossFacility0 : Nat
  CrossFacility1 : Nat
  ConnectionID0 : List Nat
  ConnectionID1 : List Nat
  Unknown3A : List Nat
  ConnectionString : List Nat
  deriving DecidableEq

/-- The Accept body (`TNSAccept` in the sources). -/
structure TNSAccept where
  Version : Nat
  GlobalServiceOptions : Nat
  SDU : Nat
  TDU : Nat
  ByteOrder : List Nat
  DataLength : Nat
  DataOffset : Nat
  ConnectFlags0 : Nat
  ConnectFlags1 : Nat
  Unknown18 : List Nat
  AcceptData : List Nat
  deriving DecidableEq

/-- The Data body (`TNSData` in the sources). -/
structure TNSData where
  DataFlags : Nat
  Data : List Nat
  deriving DecidableEq

/-- The fixed byte-order marker observed on the wire
(`DefaultByteOrder`). -/
def DefaultByteOrder : List Nat := [1, 0]

/-- The tagged packet body: a closed sum over the recognized packet types,
with unrecognized types retained as opaque bytes (section 3). -/
inductive TNSBody where
  | connect : TNSConnect → TNSBody
  | accept : TNSAccept → TNSBody
  | data : TNSData → TNSBody
  | unknown : List Nat → TNSBody
  deriving DecidableEq

/-- A full packet: header plus body (`TNSPacket` in the sources). -/
structure TNSPacket where
  Header : TNSHeader
  Body : TNSBody
  deriving DecidableEq

/-! ## Body codecs

The Connect body's fixed fields occupy body offsets 0–49 (packet offsets
8–57), so the cursor after the fixed fields sits at packet offset 58; the
Accept body's fixed fields occupy body offsets 0–15 (packet offsets 8–23),
cursor at packet offset 24.  `DataOffset` counts from the start of the
packet, header included. -/

/-- Cursor position (from packet start) after the Connect fixed fields. -/
def connectFixedEnd : Nat := 58

/-- Cursor position (from packet start) after the Accept fixed fields. -/
def acceptFixedEnd : Nat := 24

/-- Modelled from the spec: the Connect body decoder (section 4.3) — fixed
fields in order, padding between the cursor and `DataOffset` (failing with
`OffsetBeforeCursor` when the offset points backward), then `DataLength`
bytes of connection string, ignoring declared-unused trailing bytes. -/
def decodeTNSConnect (body : List Nat) : Except CodecError TNSConnect :=
  if body.length < 50 then .error .TruncatedInput
  else
    let dLen := u16At body 16
    let dOff := u16At body 18
    if dOff < connectFixedEnd then .error .OffsetBeforeCursor
    else if body.length < (dOff - 8) + dLen then .error .TruncatedInput
    else .ok
      { Version := u16At body 0
        MinVersion := u16At body 2
        GlobalServiceOptions := u16At body 4
        SDU := u16At body 6
        TDU := u16At body 8
        ProtocolCharacteristics := u16At body 10
        MaxBeforeAck := u16At body 12
        ByteOrder := (body.drop 14).take 2
        DataLength := dLen
        DataOffset := dOff
        MaxResponseSize := u32At body 20
        ConnectFlags0 := byteAt body 24
        ConnectFlags1 := byteAt body 25
        CrossFacility0 := u32At body 26
        CrossFacility1 := u32At body 30
        ConnectionID0 := (body.drop 34).take 8
        ConnectionID1 := (body.drop 42).take 8
        Unknown3A := (body.drop 50).take (dOff - connectFixedEnd)
        ConnectionString := (body.drop (dOff - 8)).take dLen }

/-- Modelled from the spec: the Connect body encoder (section 4.3) — fixed
fields in order, then the stored padding verbatim, then the trailing
string; `DataOffset`/`DataLength` are written exactly as stored, never
recomputed. -/
def encodeTNSConnect (c : TNSConnect) : List Nat :=
  u16BE c.Version ++ u16BE c.MinVersion ++ u16BE c.GlobalServiceOptions
    ++ u16BE c.SDU ++ u16BE c.TDU ++ u16BE c.ProtocolCharacteristics
    ++ u16BE c.MaxBeforeAck ++ c.ByteOrder ++ u16BE c.DataLength
    ++ u16BE c.DataOffset ++ u32BE c.MaxResponseSize
    ++ [c.ConnectFlags0 % 256, c.ConnectFlags1 % 256]
    ++ u32BE c.CrossFacility0 ++ u32BE c.CrossFacility1
    ++ c.ConnectionID0 ++ c.ConnectionID1 ++ c.Unknown3A
    ++ c.ConnectionString

/-- Modelled from the spec: the Accept body decoder (section 4.3), same
cursor/offset discipline as Connect with the Accept field layout. -/
def decodeTNSAccept (body : List Nat) : Except CodecError TNSAccept :=
  if body.length < 16 then .error .TruncatedInput
  else
    let dLen := u16At body 10
    let dOff := u16At body 12
    if dOff < acceptFixedEnd then .error .OffsetBeforeCursor
    else if body.length < (dOff - 8) + dLen then .error .TruncatedInput
    else .ok
      { Version := u16At body 0
        GlobalServiceOptions := u16At body 2
        SDU := u16At body 4
        TDU := u16At body 6
        ByteOrder := (body.drop 8).take 2
        DataLength := dLen
        DataOffset := dOff
        ConnectFlags0 := byteAt body 14
        ConnectFlags1 := byteAt body 15
        Unknown18 := (body.drop 16).take (dOff - acceptFixedEnd)
        AcceptData := (body.drop (dOff - 8)).take dLen }

/-- Modelled from the spec: the Accept body encoder (section 4.3). -/
def encodeTNSAccept (a : TNSAccept) : List Nat :=
  u16BE a.Version ++ u16BE a.GlobalServiceOptions ++ u16BE a.SDU
    ++ u16BE a.TDU ++ a.ByteOrder ++ u16BE a.DataLength
    ++ u16BE a.DataOffset ++ [a.ConnectFlags0 % 256, a.ConnectFlags1 % 256]
    ++ a.Unknown18 ++ a.AcceptData

/-- Modelled from the spec: the Data body decoder (section 4.4) — a 2-byte
`DataFlags` then the remaining declared body bytes as opaque payload. -/
def decodeTNSData (body : List Nat) : Except CodecError TNSData :=
  if body.length < 2 then .error .TruncatedInput
  else .ok { DataFlags := u16At body 0, Data := body.drop 2 }

/-- Modelled from the spec: the Data body encoder (section 4.4). -/
def encodeTNSData (d : TNSData) : List Nat :=
  u16BE d.DataFlags ++ d.Data

/-- Body encoding, dispatching on the variant. -/
def encodeTNSBody : TNSBody → List Nat
  | .connect c => encodeTNSConnect c
  | .accept a => encodeTNSAccept a
  | .data d => encodeTNSData d
  | .unknown bs => bs

/-! ## Packet dispatcher -/

/-- Modelled from the spec: `ReadTNSPacket` (section 4.2) — read a header,
reject a declared length below 8 with `InvalidLength`, acquire exactly
`Length - 8` body bytes (`TruncatedInput` when unavailable), and dispatch
on the type; unrecognized types succeed as `unknown` with the raw body. -/
def readTNSPacket (stream : List Nat) :
    Except CodecError (TNSPacket × List Nat) :=
  match decodeTNSHeader stream with
  | .error e => .error e
  | .ok (h, rest) =>
    if h.Length < 8 then .error .InvalidLength
    else
      let bodyLen := h.Length - 8
      if rest.length < bodyLen then .error .TruncatedInput
      else
        let bodyBytes := rest.take bodyLen
        let bodyRes :=
          if h.PType = PacketTypeConnect then
            (decodeTNSConnect bodyBytes).map TNSBody.connect
          else if h.PType = PacketTypeAccept then
            (decodeTNSAccept bodyBytes).map TNSBody.accept
          else if h.PType = PacketTypeData then
            (decodeTNSData bodyBytes).map TNSBody.data
          else .ok (TNSBody.unknown bodyBytes)
        match bodyRes with
        | .error e => .error e
        | .ok body => .ok ({ Header := h, Body := body }, rest.drop bodyLen)

/-- Modelled from the spec: `TNSPacket.Encode` (section 4.2) — the body is
encoded first, then the header with `Length` set to `8 + len(body)`; the
other header fields are written verbatim. -/
def encodeTNSPacket (p : TNSPacket) : List Nat :=
  let body := encodeTNSBody p.Body
  encodeTNSHeader { p.Header with Length := 8 + body.length } ++ body

/-! ## Version codec

`EncodeReleaseVersion` packs a dotted 5-component version string into a
32-bit integer; the packed layout (derived from the reference fixture
`0a 20 03 00` for `"10.2.0.3.0"`) allots 8 bits to the first component,
4 to the second and third, and 8 to the fourth and fifth. -/

/-- The decimal digits of `n`, least significant first, with explicit fuel
(`n` itself always suffices). -/
def toDigitsRev : Nat → Nat → List Nat
  | 0, _ => []
  | _, 0 => []
  | fuel + 1, n => n % 10 :: toDigitsRev fuel (n / 10)

/-- The character for decimal digit `d`. -/
def digitChar (d : Nat) : Char := Char.ofNat (48 + d)

/-- Decimal representation of `n` as characters. -/
def natToStrChars (n : Nat) : List Char :=
  if n = 0 then ['0'] else ((toDigitsRev n n).reverse).map digitChar

/-- The numeric value of a decimal digit character, when it is one. -/
def parseDigit (c : Char) : Option Nat :=
  if 48 ≤ c.toNat ∧ c.toNat ≤ 57 then some (c.toNat - 48) else none

/-- Accumulate decimal digits; fails on any non-digit character. -/
def parseDigits : List Char → Nat → Option Nat
  | [], acc => some acc
  | c :: cs, acc =>
    match parseDigit c with
    | some d => parseDigits cs (acc * 10 + d)
    | none => none

/-- Parse a non-empty all-digit character list as a natural number. -/
def parseNat : List Char → Option Nat
  | [] => none
  | cs => parseDigits cs 0

/-- Split a character list on dots. -/
def splitOnDot : List Char → List (List Char)
  | [] => [[]]
  | c :: rest =>
    if c = '.' then [] :: splitOnDot rest
    else match splitOnDot rest with
      | g :: gs => (c :: g) :: gs
      | [] => [[c]]

/-- Modelled from the spec: `EncodeReleaseVersion` (section 4.6) — pack a
dotted version string with exactly 5 numeric components into its 32-bit
wire integer, failing with `MalformedVersion` on any other shape or on a
component exceeding its allotted bit width. -/
def encodeReleaseVersion (s : String) : Except CodecError Nat :=
  match splitOnDot s.data with
  | [p1, p2, p3, p4, p5] =>
    match parseNat p1, parseNat p2, parseNat p3, parseNat p4, parseNat p5 with
    | some a, some b, some c, some d, some e =>
      if a < 256 ∧ b < 16 ∧ c < 16 ∧ d < 256 ∧ e < 256 then
        .ok (a * 16777216 + b * 1048576 + c * 65536 + d * 256 + e)
      else .error .MalformedVersion
    | _, _, _, _, _ => .error .MalformedVersion
  | _ => .error .MalformedVersion

/-- The packed version for a well-formed version string (fixture helper;
the fixtures only apply it to well-formed strings). -/
def releaseVersionOf (s : String) : Nat :=
  match encodeReleaseVersion s with
  | .ok v => v
  | .error _ => 0

/-- Modelled from the spec: unpacking a 32-bit packed version back into its
dotted 5-component string (section 4.6). -/
def decodeReleaseVersion (v : Nat) : String :=
  ⟨natToStrChars (v / 16777216) ++ '.' :: natToStrChars (v / 1048576 % 16)
    ++ '.' :: natToStrChars (v / 65536 % 16)
    ++ '.' :: natToStrChars (v / 256 % 256)
    ++ '.' :: natToStrChars (v % 256)⟩

/-! ## NSN sub-codec

Wire layout, reconstructed from the `01.NSN.Request` fixture: the marker
`de ad be ef`, a 16-bit total length (marker and length field included),
the 32-bit packed version, a 16-bit service count, one options byte, then
the services in order.  Each service is a 16-bit type, a 16-bit value
count, a 32-bit marker, then its values in order; each value is a 16-bit
byte length, a 16-bit type, then its bytes (the version-carrying variant,
type 5, is the 4-byte packed version). -/

/-- A typed NSN value (`NSNValue` in the sources). -/
structure NSNValue where
  NVType : Nat
  Value : List Nat
  deriving DecidableEq

/-- An NSN service: an ordered list of values (`NSNService`). -/
structure NSNService where
  NSType : Nat
  Values : List NSNValue
  Marker : Nat
  deriving DecidableEq

/-- The NSN negotiation structure (`TNSDataNSN`). -/
structure TNSDataNSN where
  Version : Nat
  Options : Nat
  Services : List NSNService
  deriving DecidableEq

/-- The helper `NSNValueVersion`: the version-carrying value variant (type 5). -/
def NSNValueVersion (s : String) : NSNValue :=
  { NVType := 5, Value := u32BE (releaseVersionOf s) }

/-- The helper `NSNValueBytes`: a raw-bytes value (type 1). -/
def NSNValueBytes (bs : List Nat) : NSNValue :=
  { NVType := 1, Value := bs }

/-- Modelled from the spec: NSN value encoding — 16-bit length, 16-bit
type, then the raw bytes (section 4.5). -/
def encodeNSNValue (v : NSNValue) : List Nat :=
  u16BE v.Value.length ++ u16BE v.NVType ++ v.Value

/-- Modelled from the spec: NSN service encoding — type, value count,
marker, then the values in order (section 4.5). -/
def encodeNSNService (s : NSNService) : List Nat :=
  u16BE s.NSType ++ u16BE s.Values.length ++ u32BE s.Marker
    ++ (s.Values.map encodeNSNValue).flatten

/-- Modelled from the spec: NSN structure encoding — start marker, total
length, packed version, service count, options byte, then the services in
their stored order (section 4.5). -/
def encodeNSN (n : TNSDataNSN) : List Nat :=
  let svc := (n.Services.map encodeNSNService).flatten
  [0xde, 0xad, 0xbe, 0xef] ++ u16BE (13 + svc.length) ++ u32BE n.Version
    ++ u16BE n.Services.length ++ [n.Options % 256] ++ svc

/-- Read a big-endian 16-bit value off the front of the stream. -/
def readU16 : List Nat → Except CodecError (Nat × List Nat)
  | a :: b :: rest => .ok (a * 256 + b, rest)
  | _ => .error .TruncatedInput

/-- Read a big-endian 32-bit value off the front of the stream. -/
def readU32 : List Nat → Except CodecError (Nat × List Nat)
  | a :: b :: c :: d :: rest =>
    .ok (((a * 256 + b) * 256 + c) * 256 + d, rest)
  | _ => .error .TruncatedInput

/-- Read exactly `n` bytes off the front of the stream. -/
def readBytes (n : Nat) (bs : List Nat) :
    Except CodecError (List Nat × List Nat) :=
  if bs.length < n then .error .TruncatedInput
  else .ok (bs.take n, bs.drop n)

/-- Modelled from the spec: decode one NSN value (section 4.5). -/
def readNSNValue (bs : List Nat) :
    Except CodecError (NSNValue × List Nat) := do
  let (len, bs) ← readU16 bs
  let (ty, bs) ← readU16 bs
  let (v, bs) ← readBytes len bs
  .ok ({ NVType := ty, Value := v }, bs)

/-- Decode `n` NSN values in order. -/
def readNSNValues : Nat → List Nat → Except CodecError (List NSNValue × List Nat)
  | 0, bs => .ok ([], bs)
  | n + 1, bs => do
    let (v, bs) ← readNSNValue bs
    let (vs, bs) ← readNSNValues n bs
    .ok (v :: vs, bs)

/-- Modelled from the spec: decode one NSN service — type, count-prefixed
ordered values, marker (section 4.5). -/
def readNSNService (bs : List Nat) :
    Except CodecError (NSNService × List Nat) := do
  let (ty, bs) ← readU16 bs
  let (cnt, bs) ← readU16 bs
  let (marker, bs) ← readU32 bs
  let (vals, bs) ← readNSNValues cnt bs
  .ok ({ NSType := ty, Values := vals, Marker := marker }, bs)

/-- Decode `n` NSN services in order. -/
def readNSNServices : Nat → List Nat →
    Except CodecError (List NSNService × List Nat)
  | 0, bs => .ok ([], bs)
  | n + 1, bs => do
    let (s, bs) ← readNSNService bs
    let (ss, bs) ← readNSNServices n bs
    .ok (s :: ss, bs)

/-- Modelled from the spec: decode an NSN structure from a Data payload —
start marker, total length, packed version, count-prefixed ordered
services, options (section 4.5). -/
def decodeNSN (bs : List Nat) : Except CodecError TNSDataNSN := do
  match bs with
  | 0xde :: 0xad :: 0xbe :: 0xef :: rest => do
    let (_, rest) ← readU16 rest
    let (version, rest) ← readU32 rest
    let (cnt, rest) ← readU16 rest
    match rest with
    | opts :: rest => do
      let (svcs, _) ← readNSNServices cnt rest
      .ok { Version := version, Options := opts, Services := svcs }
    | [] => .error .TruncatedInput
  | _ => .error .BadNSNMarker

/-! ## Fixtures

Transcribed literally from `validHeaders`, `validTNSData`,
`validTNSConnect` and `validTNSAccept` in the test file; the bit-flag
constants are replaced by their aggregate values, which the test file
records in comments (`0x0c41`, `0x7f08`, `0x860e`, `0x41`, `0x61`). -/

def header1Bytes : List Nat := fromHex "00 08 00 01 02 03 00 45"

def header1 : TNSHeader :=
  { Length := 8, PacketChecksum := 1, PType := 2, Flags := 3,
    HeaderChecksum := 0x45 }

def header2Bytes : List Nat := fromHex "f2 1e 01 00 07 06 76 54"

def header2 : TNSHeader :=
  { Length := 0xF21E, PacketChecksum := 0x0100, PType := 0x07,
    Flags := 0x06, HeaderChecksum := 0x7654 }

def dataEmptyBytes : List Nat := fromHex "00 0A 00 00 06 00 00 00  80 00"

def dataEmpty : TNSPacket :=
  { Header := { Length := 0x0A, PacketChecksum := 0, Flags := 0,
                PType := PacketTypeData, HeaderChecksum := 0 },
    Body := .data { DataFlags := 0x8000, Data := [] } }

def dataTrivialBytes : List Nat :=
  fromHex "00 10 00 00 06 00 00 00  00 01 31 32 33 34 35 36"

def dataTrivial : TNSPacket :=
  { Header := { Length := 0x10, PacketChecksum := 0, Flags := 0,
                PType := PacketTypeData, HeaderChecksum := 0 },
    Body := .data { DataFlags := 1, Data := strBytes "123456" } }

def nsnRequestBytes : List Nat :=
  fromHex ("00 a8 00 00 06 00 00 00  00 00 de ad be ef 00 9e "
    ++ "0a 20 03 00 00 04 00 00  04 00 03 00 00 00 00 00 "
    ++ "04 00 05 0a 20 03 00 00  08 00 01 00 00 04 ec 19 "
    ++ "2c 7b 4c 00 12 00 01 de  ad be ef 00 03 00 00 00 "
    ++ "04 00 04 00 01 00 01 00  02 00 01 00 05 00 00 00 "
    ++ "00 00 04 00 05 0a 20 03  00 00 02 00 03 e0 e1 00 "
    ++ "02 00 06 fc ff 00 01 00  02 01 00 03 00 00 4e 54 "
    ++ "53 00 02 00 02 00 00 00  00 00 04 00 05 0a 20 03 "
    ++ "00 00 0c 00 01 00 11 06  10 0c 0f 0a 0b 08 02 01 "
    ++ "03 00 03 00 02 00 00 00  00 00 04 00 05 0a 20 03 "
    ++ "00 00 03 00 01 00 03 01 ")

def nsnRequest : TNSDataNSN :=
  { Version := releaseVersionOf "10.2.0.3.0"
    Options := 0
    Services :=
      [ { NSType := 4
          Values :=
            [ NSNValueVersion "10.2.0.3.0"
              , NSNValueBytes (fromHex "00 00 04 ec 19 2c 7b 4c")
              , NSNValueBytes (fromHex
                  "de ad be ef 00 03 00 00 00 04 00 04 00 01 00 01 00 02") ]
          Marker := 0 }
        , { NSType := 1
            Values :=
              [ NSNValueVersion "10.2.0.3.0"
                , { NVType := 3, Value := fromHex "e0 e1" }
                , { NVType := 6, Value := fromHex "fc ff" }
                , { NVType := 2, Value := fromHex "01" }
                , { NVType := 0, Value := strBytes "NTS" } ]
            Marker := 0 }
        , { NSType := 2
            Values :=
              [ NSNValueVersion "10.2.0.3.0"
                , { NVType := 1
                    Value := fromHex "00 11 06 10 0c 0f 0a 0b 08 02 01 03" } ]
            Marker := 0 }
        , { NSType := 3
            Values :=
              [ NSNValueVersion "10.2.0.3.0"
                , { NVType := 1, Value := fromHex "00 03 01" } ]
            Marker := 0 } ] }

def nsnRequestPacket : TNSPacket :=
  { Header := { Length := 0x00a8, PacketChecksum := 0, Flags := 0,
                PType := PacketTypeData, HeaderChecksum := 0 },
    Body := .data { DataFlags := 0, Data := encodeNSN nsnRequest } }

def connect1Bytes : List Nat :=
  fromHex ("00 ca 00 00 01 00 00 00  01 3a 01 2c 0c 41 20 00 "
    ++ "ff ff 7f 08 00 00 01 00  00 90 00 3a 00 00 08 00 "
    ++ "41 41 00 00 00 00 00 00  00 00 00 00 00 00 00 00 "
    ++ "00 00 00 00 00 00 00 00  00 00 28 44 45 53 43 52 "
    ++ "49 50 54 49 4f 4e 3d 28  43 4f 4e 4e 45 43 54 5f "
    ++ "44 41 54 41 3d 28 53 45  52 56 49 43 45 5f 4e 41 "
    ++ "4d 45 3d 63 6b 64 62 29  28 43 49 44 3d 28 50 52 "
    ++ "4f 47 52 41 4d 3d 67 73  71 6c 29 28 48 4f 53 54 "
    ++ "3d 4d 63 41 66 65 65 29  28 55 53 45 52 3d 72 6f "
    ++ "6f 74 29 29 29 28 41 44  44 52 45 53 53 3d 28 50 "
    ++ "52 4f 54 4f 43 4f 4c 3d  54 43 50 29 28 48 4f 53 "
    ++ "54 3d 31 30 2e 31 2e 35  30 2e 31 34 29 28 50 4f "
    ++ "52 54 3d 31 35 32 31 29  29 29 ")

def connect1 : TNSPacket :=
  { Header := { Length := 0x00ca, PacketChecksum := 0,
                PType := PacketTypeConnect, Flags := 0, HeaderChecksum := 0 },
    Body := .connect
      { Version := 0x013a
        MinVersion := 0x012c
        GlobalServiceOptions := 0x0c41
        SDU := 0x2000
        TDU := 0xffff
        ProtocolCharacteristics := 0x7f08
        MaxBeforeAck := 0
        ByteOrder := DefaultByteOrder
        DataLength := 0x0090
        DataOffset := 0x003A
        MaxResponseSize := 0x00000800
        ConnectFlags0 := 0x41
        ConnectFlags1 := 0x41
        CrossFacility0 := 0
        CrossFacility1 := 0
        ConnectionID0 := [0, 0, 0, 0, 0, 0, 0, 0]
        ConnectionID1 := [0, 0, 0, 0, 0, 0, 0, 0]
        Unknown3A := []
        ConnectionString := strBytes "(DESCRIPTION=(CONNECT_DATA=(SERVICE_NAME=ckdb)(CID=(PROGRAM=gsql)(HOST=McAfee)(USER=root)))(ADDRESS=(PROTOCOL=TCP)(HOST=10.1.50.14)(PORT=1521)))" } }

def connect2Bytes : List Nat :=
  fromHex ("01 00 00 00 01 04 00 00  01 38 01 2c 00 00 08 00 "
    ++ "7f ff 86 0e 00 00 01 00  00 c6 00 3a 00 00 02 00 "
    ++ "61 61 00 00 00 00 00 00  00 00 00 00 04 10 00 00 "
    ++ "00 03 00 00 00 00 00 00  00 00 28 44 45 53 43 52 "
    ++ "49 50 54 49 4f 4e 3d 28  41 44 44 52 45 53 53 3d "
    ++ "28 50 52 4f 54 4f 43 4f  4c 3d 54 43 50 29 28 48 "
    ++ "4f 53 54 3d 31 39 32 2e  31 36 38 2e 31 2e 32 32 "
    ++ "31 29 28 50 4f 52 54 3d  31 35 32 31 29 29 28 43 "
    ++ "4f 4e 4e 45 43 54 5f 44  41 54 41 3d 28 53 49 44 "
    ++ "3d 76 6f 69 64 29 28 53  45 52 56 45 52 3d 44 45 "
    ++ "44 49 43 41 54 45 44 29  28 43 49 44 3d 28 50 52 "
    ++ "4f 47 52 41 4d 3d 46 3a  5c 6f 72 61 63 6c 65 5c "
    ++ "6f 72 61 39 32 5c 62 69  6e 5c 73 71 6c 70 6c 75 "
    ++ "73 2e 65 78 65 29 28 48  4f 53 54 3d 46 41 4e 47 "
    ++ "48 4f 4e 47 5a 48 41 4f  29 28 55 53 45 52 3d 41 "
    ++ "64 6d 69 6e 69 73 74 72  61 74 6f 72 29 29 29 29 ")

def connect2 : TNSPacket :=
  { Header := { Length := 0x0100, PacketChecksum := 0,
                PType := PacketTypeConnect, Flags := 0x04, HeaderChecksum := 0 },
    Body := .connect
      { Version := 0x0138
        MinVersion := 0x012c
        GlobalServiceOptions := 0
        SDU := 0x0800
        TDU := 0x7fff
        ProtocolCharacteristics := 0x860e
        MaxBeforeAck := 0
        ByteOrder := DefaultByteOrder
        DataLength := 0x00c6
        DataOffset := 0x003a
        MaxResponseSize := 0x00000200
        ConnectFlags0 := 0x61
        ConnectFlags1 := 0x61
        CrossFacility0 := 0
        CrossFacility1 := 0
        ConnectionID0 := [0x00, 0x00, 0x04, 0x10, 0x00, 0x00, 0x00, 0x03]
        ConnectionID1 := [0, 0, 0, 0, 0, 0, 0, 0]
        Unknown3A := []
        ConnectionString := strBytes "(DESCRIPTION=(ADDRESS=(PROTOCOL=TCP)(HOST=192.168.1.221)(PORT=1521))(CONNECT_DATA=(SID=void)(SERVER=DEDICATED)(CID=(PROGRAM=F:\\oracle\\ora92\\bin\\sqlplus.exe)(HOST=FANGHONGZHAO)(USER=Administrator))))" } }

def connect3Bytes : List Nat :=
  fromHex ("00 ec 00 00 01 04 00 00  01 38 01 2c 00 00 08 00 "
    ++ "7f ff 86 0e 00 00 01 00  00 b2 00 3a 00 00 02 00 "
    ++ "61 61 00 00 00 00 00 00  00 00 00 00 10 ec 00 00 "
    ++ "00 05 00 00 00 00 00 00  00 00 28 44 45 53 43 52 "
    ++ "49 50 54 49 4f 4e 3d 28  41 44 44 52 45 53 53 3d "
    ++ "28 50 52 4f 54 4f 43 4f  4c 3d 54 43 50 29 28 48 "
    ++ "4f 53 54 3d 41 41 29 28  50 4f 52 54 3d 31 35 32 "
    ++ "31 29 29 28 43 4f 4e 4e  45 43 54 5f 44 41 54 41 "
    ++ "3d 28 53 49 44 3d 76 6f  69 64 29 28 53 45 52 56 "
    ++ "45 52 3d 44 45 44 49 43  41 54 45 44 29 28 43 49 "
    ++ "44 3d 28 50 52 4f 47 52  41 4d 3d 44 3a 5c 6f 72 "
    ++ "61 63 6c 65 5c 6f 72 61  39 32 5c 62 69 6e 5c 73 "
    ++ "71 6c 70 6c 75 73 2e 65  78 65 29 28 48 4f 53 54 "
    ++ "3d 48 49 4e 47 45 2d 48  41 4e 59 46 29 28 55 53 "
    ++ "45 52 3d 68 61 6e 79 66  29 29 29 29 ")

def connect3 : TNSPacket :=
  { Header := { Length := 0x00EC, PacketChecksum := 0,
                PType := PacketTypeConnect, Flags := 0x04, HeaderChecksum := 0 },
    Body := .connect
      { Version := 0x0138
        MinVersion := 0x012c
        GlobalServiceOptions := 0
        SDU := 0x0800
        TDU := 0x7fff
        ProtocolCharacteristics := 0x860e
        MaxBeforeAck := 0
        ByteOrder := DefaultByteOrder
        DataLength := 0x00b2
        DataOffset := 0x003a
        MaxResponseSize := 0x00000200
        ConnectFlags0 := 0x61
        ConnectFlags1 := 0x61
        CrossFacility0 := 0
        CrossFacility1 := 0
        ConnectionID0 := [0x00, 0x00, 0x10, 0xec, 0x00, 0x00, 0x00, 0x05]
        ConnectionID1 := [0, 0, 0, 0, 0, 0, 0, 0]
        Unknown3A := []
        ConnectionString := strBytes "(DESCRIPTION=(ADDRESS=(PROTOCOL=TCP)(HOST=AA)(PORT=1521))(CONNECT_DATA=(SID=void)(SERVER=DEDICATED)(CID=(PROGRAM=D:\\oracle\\ora92\\bin\\sqlplus.exe)(HOST=HINGE-HANYF)(USER=hanyf))))" } }

def connectUnknownBytes : List Nat :=
  fromHex ("00 d7 00 00 01 00 00 00  01 3b 01 2c 0c 41 20 00 "
    ++ "ff ff 7f 08 00 00 01 00  00 91 00 46 00 00 08 00 "
    ++ "41 41 00 00 00 00 00 00  00 00 00 00 00 00 00 00 "
    ++ "00 00 00 00 00 00 00 00  00 00 00 00 20 00 00 20 "
    ++ "00 00 00 00 00 00 28 44  45 53 43 52 49 50 54 49 "
    ++ "4f 4e 3d 28 43 4f 4e 4e  45 43 54 5f 44 41 54 41 "
    ++ "3d 28 53 49 44 3d 6f 72  63 6c 31 31 67 29 28 43 "
    ++ "49 44 3d 28 50 52 4f 47  52 41 4d 3d 73 71 6c 70 "
    ++ "6c 75 73 40 6b 61 6c 69  29 28 48 4f 53 54 3d 6b "
    ++ "61 6c 69 29 28 55 53 45  52 3d 72 6f 6f 74 29 29 "
    ++ "29 28 41 44 44 52 45 53  53 3d 28 50 52 4f 54 4f "
    ++ "43 4f 4c 3d 54 43 50 29  28 48 4f 53 54 3d 31 30 "
    ++ "2e 30 2e 37 32 2e 31 31  33 29 28 50 4f 52 54 3d "
    ++ "31 35 32 31 29 29 29 ")

def connectUnknown : TNSPacket :=
  { Header := { Length := 0x00d7, PacketChecksum := 0,
                PType := PacketTypeConnect, Flags := 0, HeaderChecksum := 0 },
    Body := .connect
      { Version := 0x013b
        MinVersion := 0x012c
        GlobalServiceOptions := 0x0c41
        SDU := 0x2000
        TDU := 0xffff
        ProtocolCharacteristics := 0x7f08
        MaxBeforeAck := 0
        ByteOrder := DefaultByteOrder
        DataLength := 0x0091
        DataOffset := 0x0046
        MaxResponseSize := 0x00000800
        ConnectFlags0 := 0x41
        ConnectFlags1 := 0x41
        CrossFacility0 := 0
        CrossFacility1 := 0
        ConnectionID0 := [0, 0, 0, 0, 0, 0, 0, 0]
        ConnectionID1 := [0, 0, 0, 0, 0, 0, 0, 0]
        Unknown3A := [0x00, 0x00, 0x20, 0x00, 0x00, 0x20, 0x00, 0x00, 0x00,
                      0x00, 0x00, 0x00]
        ConnectionString := strBytes "(DESCRIPTION=(CONNECT_DATA=(SID=orcl11g)(CID=(PROGRAM=sqlplus@kali)(HOST=kali)(USER=root)))(ADDRESS=(PROTOCOL=TCP)(HOST=10.0.72.113)(PORT=1521)))" } }

def accept1Bytes : List Nat :=
  fromHex ("00 20 00 00 02 00 00 00  01 39 00 00 08 00 7f ff "
    ++ "01 00 00 00 00 20 61 61  00 00 00 00 00 00 00 00 ")

def accept1 : TNSPacket :=
  { Header := { Length := 0x0020, PacketChecksum := 0,
                PType := PacketTypeAccept, Flags := 0, HeaderChecksum := 0 },
    Body := .accept
      { Version := 0x0139
        GlobalServiceOptions := 0
        SDU := 0x0800
        TDU := 0x7fff
        ByteOrder := DefaultByteOrder
        DataLength := 0
        DataOffset := 0x20
        ConnectFlags0 := 0x61
        ConnectFlags1 := 0x61
        Unknown18 := [0, 0, 0, 0, 0, 0, 0, 0]
        AcceptData := [] } }

/-! ## Claims -/

/-- Claim **C1.** For every packet fixture (Connect, Accept and Data alike),
decoding the bytes produced by encoding the fixture yields the fixture
back with nothing left over, and re-encoding the packet decoded from the
fixture's reference byte encoding reproduces those bytes exactly:
`decode(encode(P)) = P` and `encode(decode(bytes)) = bytes`. -/
theorem c1_roundtrip_fixtures :
    (encodeTNSPacket connect1 = connect1Bytes
      ∧ readTNSPacket connect1Bytes = .ok (connect1, []))
    ∧ (encodeTNSPacket connect2 = connect2Bytes
      ∧ readTNSPacket connect2Bytes = .ok (connect2, []))
    ∧ (encodeTNSPacket connect3 = connect3Bytes
      ∧ readTNSPacket connect3Bytes = .ok (connect3, []))
    ∧ (encodeTNSPacket connectUnknown = connectUnknownBytes
      ∧ readTNSPacket connectUnknownBytes = .ok (connectUnknown, []))
    ∧ (encodeTNSPacket accept1 = accept1Bytes
      ∧ readTNSPacket accept1Bytes = .ok (accept1, []))
    ∧ (encodeTNSPacket dataEmpty = dataEmptyBytes
      ∧ readTNSPacket dataEmptyBytes = .ok (dataEmpty, []))
    ∧ (encodeTNSPacket dataTrivial = dataTrivialBytes
      ∧ readTNSPacket dataTrivialBytes = .ok (dataTrivial, []))
    ∧ (encodeTNSPacket nsnRequestPacket = nsnRequestBytes
      ∧ readTNSPacket nsnRequestBytes = .ok (nsnRequestPacket, [])) := by
  decide

/-- Claim **C2.** Decoding the 8 bytes `00 08 00 01 02 03 00 45` returns the
header `{length 8, packet checksum 1, type 2, flags 3, header checksum
0x45}` with no bytes left over, and encoding that header yields the
identical 8 bytes. -/
theorem c2_header_fixture :
    decodeTNSHeader header1Bytes = .ok (header1, [])
    ∧ encodeTNSHeader header1 = header1Bytes := by
  decide

/-- Claim **C4.** Decoding any valid packet fixture with its last byte removed
fails with `TruncatedInput` (never a silently-short success), and the
header decoder fails with `TruncatedInput` whenever fewer than 8 bytes are
available. -/
theorem c4_truncation :
    (readTNSPacket connect1Bytes.dropLast = .error .TruncatedInput
      ∧ readTNSPacket connect2Bytes.dropLast = .error .TruncatedInput
      ∧ readTNSPacket connect3Bytes.dropLast = .error .TruncatedInput
      ∧ readTNSPacket connectUnknownBytes.dropLast = .error .TruncatedInput
      ∧ readTNSPacket accept1Bytes.dropLast = .error .TruncatedInput
      ∧ readTNSPacket dataEmptyBytes.dropLast = .error .TruncatedInput
      ∧ readTNSPacket dataTrivialBytes.dropLast = .error .TruncatedInput
      ∧ readTNSPacket nsnRequestBytes.dropLast = .error .TruncatedInput)
    ∧ ∀ bs : List Nat, bs.length < 8 →
        decodeTNSHeader bs = .error .TruncatedInput := by
  refine ⟨by decide, ?_⟩
  intro bs h
  rcases bs with _ | ⟨b0, _ | ⟨b1, _ | ⟨b2, _ | ⟨b3, _ | ⟨b4, _ | ⟨b5, _ |
    ⟨b6, _ | ⟨b7, rest⟩⟩⟩⟩⟩⟩⟩⟩ <;> first
    | rfl
    | (exfalso; simp only [List.length_cons] at h; omega)

/-- Claim **C4 witness.** The header decoder rejects a concrete 3-byte input
with `TruncatedInput`. -/
theorem c4_truncation_witness :
    decodeTNSHeader [0, 1, 2] = .error .TruncatedInput :=
  c4_truncation.2 [0, 1, 2] (by decide)

/-- Claim **C5.** Whenever the decoded header declares a total length smaller
than 8, `readTNSPacket` fails with `InvalidLength`; such a header is never
processed further. -/
theorem c5_invalid_length (bs : List Nat) (h : TNSHeader) (rest : List Nat)
    (hdec : decodeTNSHeader bs = .ok (h, rest)) (hlen : h.Length < 8) :
    readTNSPacket bs = .error .InvalidLength := by
  simp [readTNSPacket, hdec, hlen]

/-- Claim **C5 witness.** A concrete stream whose header declares length 7 is
rejected with `InvalidLength`. -/
theorem c5_invalid_length_witness :
    readTNSPacket [0, 7, 0, 0, 0, 0, 0, 0] = .error .InvalidLength :=
  c5_invalid_length [0, 7, 0, 0, 0, 0, 0, 0]
    { Length := 7, PacketChecksum := 0, PType := 0, Flags := 0,
      HeaderChecksum := 0 } [] (by decide) (by decide)

/-- Claim **C10.** The header decoder succeeds on every input of at least 8
bytes regardless of field values, consuming exactly 8 bytes and returning
the remainder, with no validation of length, type or checksums — in
particular the fixture with declared length `0xF21E` and unrecognized type
`0x07` decodes from exactly 8 bytes with empty remainder — so the
`TruncatedInput` branch is unreachable with 8 or more bytes available. -/
theorem c10_header_total (bs : List Nat) (hlen : 8 ≤ bs.length) :
    decodeTNSHeader bs =
      .ok ({ Length := u16At bs 0, PacketChecksum := u16At bs 2,
             PType := byteAt bs 4, Flags := byteAt bs 5,
             HeaderChecksum := u16At bs 6 }, bs.drop 8)
    ∧ decodeTNSHeader header2Bytes = .ok (header2, []) := by
  refine ⟨?_, by decide⟩
  rcases bs with _ | ⟨b0, _ | ⟨b1, _ | ⟨b2, _ | ⟨b3, _ | ⟨b4, _ | ⟨b5, _ |
    ⟨b6, _ | ⟨b7, rest⟩⟩⟩⟩⟩⟩⟩⟩ <;> first
    | rfl
    | (exfalso; simp only [List.length_cons, List.length_nil] at hlen; omega)

/-- Claim **C10 witness.** The universal statement applied to the concrete
8-byte fixture `f2 1e 01 00 07 06 76 54`. -/
theorem c10_header_total_witness :
    decodeTNSHeader [0xf2, 0x1e, 0x01, 0x00, 0x07, 0x06, 0x76, 0x54] =
      .ok ({ Length := u16At [0xf2, 0x1e, 0x01, 0x00, 0x07, 0x06, 0x76, 0x54] 0,
             PacketChecksum := u16At [0xf2, 0x1e, 0x01, 0x00, 0x07, 0x06, 0x76, 0x54] 2,
             PType := byteAt [0xf2, 0x1e, 0x01, 0x00, 0x07, 0x06, 0x76, 0x54] 4,
             Flags := byteAt [0xf2, 0x1e, 0x01, 0x00, 0x07, 0x06, 0x76, 0x54] 5,
             HeaderChecksum := u16At [0xf2, 0x1e, 0x01, 0x00, 0x07, 0x06, 0x76, 0x54] 6 },
           List.drop 8 [0xf2, 0x1e, 0x01, 0x00, 0x07, 0x06, 0x76, 0x54])
    ∧ decodeTNSHeader header2Bytes = .ok (header2, []) :=
  c10_header_total [0xf2, 0x1e, 0x01, 0x00, 0x07, 0x06, 0x76, 0x54] (by decide)

/-- Decoding an encoded in-range header returns the header verbatim with
the trailing bytes untouched. -/
theorem decodeTNSHeader_encodeTNSHeader (h : TNSHeader) (tail : List Nat)
    (hL : h.Length < 65536) (hPC : h.PacketChecksum < 65536)
    (hT : h.PType < 256) (hF : h.Flags < 256)
    (hHC : h.HeaderChecksum < 65536) :
    decodeTNSHeader (encodeTNSHeader h ++ tail) = .ok (h, tail) := by
  obtain ⟨L, PC, T, F, HC⟩ := h
  simp only at hL hPC hT hF hHC
  simp only [encodeTNSHeader, u16BE, List.cons_append, List.nil_append,
    decodeTNSHeader]
  have e1 : L / 256 % 256 * 256 + L % 256 = L := by omega
  have e2 : PC / 256 % 256 * 256 + PC % 256 = PC := by omega
  have e3 : T % 256 = T := Nat.mod_eq_of_lt hT
  have e4 : F % 256 = F := Nat.mod_eq_of_lt hF
  have e5 : HC / 256 % 256 * 256 + HC % 256 = HC := by omega
  rw [e1, e2, e3, e4, e5]

/-- Claim **C3.** For every header whose type is not a recognized packet type
(1 = Connect, 2 = Accept, 6 = Data) and any body of the declared length,
`readTNSPacket` succeeds, returning the body as the `unknown` variant
holding the raw body bytes, and re-encoding that packet reproduces the
original bytes. -/
theorem c3_unknown_type (h : TNSHeader) (body : List Nat)
    (hlen8 : 8 ≤ h.Length) (hL : h.Length < 65536)
    (hPC : h.PacketChecksum < 65536) (hT : h.PType < 256)
    (hF : h.Flags < 256) (hHC : h.HeaderChecksum < 65536)
    (hne1 : h.PType ≠ PacketTypeConnect)
    (hne2 : h.PType ≠ PacketTypeAccept)
    (hne6 : h.PType ≠ PacketTypeData)
    (hbody : body.length = h.Length - 8) :
    readTNSPacket (encodeTNSHeader h ++ body) =
      .ok ({ Header := h, Body := .unknown body }, [])
    ∧ encodeTNSPacket { Header := h, Body := .unknown body } =
      encodeTNSHeader h ++ body := by
  constructor
  · have hdr := decodeTNSHeader_encodeTNSHeader h body hL hPC hT hF hHC
    simp only [readTNSPacket, hdr]
    rw [if_neg (show ¬ h.Length < 8 by omega)]
    rw [if_neg (show ¬ body.length < h.Length - 8 by omega)]
    rw [if_neg hne1, if_neg hne2, if_neg hne6]
    rw [show h.Length - 8 = body.length from hbody.symm, List.take_length,
      List.drop_length]
  · have hlen : 8 + body.length = h.Length := by omega
    obtain ⟨L, PC, T, F, HC⟩ := h
    simp only at hlen
    simp only [encodeTNSPacket, encodeTNSBody, hlen]

/-- Claim **C3 witness.** A concrete header with unrecognized type `0xFF` and a
2-byte body decodes to the `unknown` variant and re-encodes exactly. -/
theorem c3_unknown_type_witness :
    readTNSPacket (encodeTNSHeader
        { Length := 10, PacketChecksum := 0, PType := 0xFF, Flags := 0,
          HeaderChecksum := 0 } ++ [7, 9]) =
      .ok ({ Header := { Length := 10, PacketChecksum := 0, PType := 0xFF,
                         Flags := 0, HeaderChecksum := 0 },
             Body := .unknown [7, 9] }, [])
    ∧ encodeTNSPacket
        { Header := { Length := 10, PacketChecksum := 0, PType := 0xFF,
                      Flags := 0, HeaderChecksum := 0 },
          Body := .unknown [7, 9] } =
      encodeTNSHeader
        { Length := 10, PacketChecksum := 0, PType := 0xFF, Flags := 0,
          HeaderChecksum := 0 } ++ [7, 9] :=
  c3_unknown_type
    { Length := 10, PacketChecksum := 0, PType := 0xFF, Flags := 0,
      HeaderChecksum := 0 } [7, 9] (by decide) (by decide) (by decide)
    (by decide) (by decide) (by decide) (by decide) (by decide) (by decide)
    (by decide)

/-- Claim **C6.** When decoding a Connect or Accept body whose fixed fields are
present, a declared `DataOffset` pointing before the cursor position
reached after the fixed fields (packet offset 58 for Connect, 24 for
Accept) fails with `OffsetBeforeCursor`; otherwise the bytes between the
cursor and `DataOffset` are read as padding and `DataLength` bytes are
then read as the trailing string/blob. -/
theorem c6_offset_discipline (body : List Nat) :
    (50 ≤ body.length →
      (u16At body 18 < connectFixedEnd →
        decodeTNSConnect body = .error .OffsetBeforeCursor)
      ∧ (connectFixedEnd ≤ u16At body 18 →
          u16At body 18 - 8 + u16At body 16 ≤ body.length →
          ∃ c, decodeTNSConnect body = .ok c
            ∧ c.Unknown3A =
                (body.drop 50).take (u16At body 18 - connectFixedEnd)
            ∧ c.ConnectionString =
                (body.drop (u16At body 18 - 8)).take (u16At body 16)))
    ∧ (16 ≤ body.length →
      (u16At body 12 < acceptFixedEnd →
        decodeTNSAccept body = .error .OffsetBeforeCursor)
      ∧ (acceptFixedEnd ≤ u16At body 12 →
          u16At body 12 - 8 + u16At body 10 ≤ body.length →
          ∃ a, decodeTNSAccept body = .ok a
            ∧ a.Unknown18 =
                (body.drop 16).take (u16At body 12 - acceptFixedEnd)
            ∧ a.AcceptData =
                (body.drop (u16At body 12 - 8)).take (u16At body 10))) := by
  constructor
  · intro h50
    constructor
    · intro hoff
      simp only [decodeTNSConnect]
      rw [if_neg (by omega), if_pos hoff]
    · intro hoff hfit
      simp only [decodeTNSConnect]
      rw [if_neg (by omega), if_neg (by omega), if_neg (by omega)]
      exact ⟨_, rfl, rfl, rfl⟩
  · intro h16
    constructor
    · intro hoff
      simp only [decodeTNSAccept]
      rw [if_neg (by omega), if_pos hoff]
    · intro hoff hfit
      simp only [decodeTNSAccept]
      rw [if_neg (by omega), if_neg (by omega), if_neg (by omega)]
      exact ⟨_, rfl, rfl, rfl⟩

/-- Claim **C6 witness.** On a concrete all-zero 50-byte body, whose declared
`DataOffset` 0 points before both cursors, the Connect and Accept decoders
fail with `OffsetBeforeCursor`. -/
theorem c6_offset_discipline_witness :
    decodeTNSConnect (List.replicate 50 0) = .error .OffsetBeforeCursor
    ∧ decodeTNSAccept (List.replicate 50 0) = .error .OffsetBeforeCursor :=
  ⟨((c6_offset_discipline (List.replicate 50 0)).1 (by decide)).1 (by decide),
   ((c6_offset_discipline (List.replicate 50 0)).2 (by decide)).1 (by decide)⟩

/-- Claim **C7.** The Connect encoder writes the stored `DataLength` and
`DataOffset` field values (at body offsets 16 and 18) and the stored
padding bytes (at body offset 50) verbatim, never recomputing them from
the body content; consequently the `unknown` fixture — whose `DataOffset`
is 0x46 and whose padding holds stray non-zero bytes — round-trips to its
original byte encoding exactly. -/
theorem c7_encoder_verbatim (c : TNSConnect)
    (hbo : c.ByteOrder.length = 2) (hc0 : c.ConnectionID0.length = 8)
    (hc1 : c.ConnectionID1.length = 8) :
    ((encodeTNSConnect c).drop 16).take 2 = u16BE c.DataLength
    ∧ ((encodeTNSConnect c).drop 18).take 2 = u16BE c.DataOffset
    ∧ ((encodeTNSConnect c).drop 50).take c.Unknown3A.length = c.Unknown3A
    ∧ (encodeTNSConnect c).drop (50 + c.Unknown3A.length) =
        c.ConnectionString
    ∧ encodeTNSPacket connectUnknown = connectUnknownBytes
    ∧ readTNSPacket connectUnknownBytes = .ok (connectUnknown, []) := by
  refine ⟨?_, ?_, ?_, ?_, by decide, by decide⟩
  · have hE : encodeTNSConnect c =
        (u16BE c.Version ++ u16BE c.MinVersion
          ++ u16BE c.GlobalServiceOptions ++ u16BE c.SDU ++ u16BE c.TDU
          ++ u16BE c.ProtocolCharacteristics ++ u16BE c.MaxBeforeAck
          ++ c.ByteOrder)
        ++ (u16BE c.DataLength
          ++ (u16BE c.DataOffset ++ u32BE c.MaxResponseSize
            ++ [c.ConnectFlags0 % 256, c.ConnectFlags1 % 256]
            ++ u32BE c.CrossFacility0 ++ u32BE c.CrossFacility1
            ++ c.ConnectionID0 ++ c.ConnectionID1 ++ c.Unknown3A
            ++ c.ConnectionString)) := by
      simp [encodeTNSConnect, List.append_assoc]
    rw [hE, List.drop_left' (by simp [u16BE, hbo]),
      List.take_left' (by simp [u16BE])]
  · have hE : encodeTNSConnect c =
        (u16BE c.Version ++ u16BE c.MinVersion
          ++ u16BE c.GlobalServiceOptions ++ u16BE c.SDU ++ u16BE c.TDU
          ++ u16BE c.ProtocolCharacteristics ++ u16BE c.MaxBeforeAck
          ++ c.ByteOrder ++ u16BE c.DataLength)
        ++ (u16BE c.DataOffset
          ++ (u32BE c.MaxResponseSize
            ++ [c.ConnectFlags0 % 256, c.ConnectFlags1 % 256]
            ++ u32BE c.CrossFacility0 ++ u32BE c.CrossFacility1
            ++ c.ConnectionID0 ++ c.ConnectionID1 ++ c.Unknown3A
            ++ c.ConnectionString)) := by
      simp [encodeTNSConnect, List.append_assoc]
    rw [hE, List.drop_left' (by simp [u16BE, hbo]),
      List.take_left' (by simp [u16BE])]
  · have hE : encodeTNSConnect c =
        (u16BE c.Version ++ u16BE c.MinVersion
          ++ u16BE c.GlobalServiceOptions ++ u16BE c.SDU ++ u16BE c.TDU
          ++ u16BE c.ProtocolCharacteristics ++ u16BE c.MaxBeforeAck
          ++ c.ByteOrder ++ u16BE c.DataLength ++ u16BE c.DataOffset
          ++ u32BE c.MaxResponseSize
          ++ [c.ConnectFlags0 % 256, c.ConnectFlags1 % 256]
          ++ u32BE c.CrossFacility0 ++ u32BE c.CrossFacility1
          ++ c.ConnectionID0 ++ c.ConnectionID1)
        ++ (c.Unknown3A ++ c.ConnectionString) := by
      simp [encodeTNSConnect, List.append_assoc]
    rw [hE, List.drop_left' (by simp [u16BE, u32BE, hbo, hc0, hc1]),
      List.take_left]
  · have hE : encodeTNSConnect c =
        (u16BE c.Version ++ u16BE c.MinVersion
          ++ u16BE c.GlobalServiceOptions ++ u16BE c.SDU ++ u16BE c.TDU
          ++ u16BE c.ProtocolCharacteristics ++ u16BE c.MaxBeforeAck
          ++ c.ByteOrder ++ u16BE c.DataLength ++ u16BE c.DataOffset
          ++ u32BE c.MaxResponseSize
          ++ [c.ConnectFlags0 % 256, c.ConnectFlags1 % 256]
          ++ u32BE c.CrossFacility0 ++ u32BE c.CrossFacility1
          ++ c.ConnectionID0 ++ c.ConnectionID1 ++ c.Unknown3A)
        ++ c.ConnectionString := by
      simp [encodeTNSConnect, List.append_assoc]
    rw [hE, List.drop_left'
      (by simp [u16BE, u32BE, hbo, hc0, hc1]; omega)]

/-- Claim **C7 witness.** The positional facts instantiated at the `unknown`
fixture's Connect body. -/
theorem c7_encoder_verbatim_witness :
    (((encodeTNSConnect
        { Version := 0x013b, MinVersion := 0x012c,
          GlobalServiceOptions := 0x0c41, SDU := 0x2000, TDU := 0xffff,
          ProtocolCharacteristics := 0x7f08, MaxBeforeAck := 0,
          ByteOrder := DefaultByteOrder, DataLength := 0x0091,
          DataOffset := 0x0046, MaxResponseSize := 0x00000800,
          ConnectFlags0 := 0x41, ConnectFlags1 := 0x41,
          CrossFacility0 := 0, CrossFacility1 := 0,
          ConnectionID0 := [0, 0, 0, 0, 0, 0, 0, 0],
          ConnectionID1 := [0, 0, 0, 0, 0, 0, 0, 0],
          Unknown3A := [0x00, 0x00, 0x20, 0x00, 0x00, 0x20, 0x00, 0x00,
                        0x00, 0x00, 0x00, 0x00],
          ConnectionString := [] }).drop 18).take 2 = u16BE 0x0046) := by
  have h := c7_encoder_verbatim
    { Version := 0x013b, MinVersion := 0x012c,
      GlobalServiceOptions := 0x0c41, SDU := 0x2000, TDU := 0xffff,
      ProtocolCharacteristics := 0x7f08, MaxBeforeAck := 0,
      ByteOrder := DefaultByteOrder, DataLength := 0x0091,
      DataOffset := 0x0046, MaxResponseSize := 0x00000800,
      ConnectFlags0 := 0x41, ConnectFlags1 := 0x41,
      CrossFacility0 := 0, CrossFacility1 := 0,
      ConnectionID0 := [0, 0, 0, 0, 0, 0, 0, 0],
      ConnectionID1 := [0, 0, 0, 0, 0, 0, 0, 0],
      Unknown3A := [0x00, 0x00, 0x20, 0x00, 0x00, 0x20, 0x00, 0x00, 0x00,
                    0x00, 0x00, 0x00],
      ConnectionString := [] } (by decide) (by decide) (by decide)
  exact h.2.1

/-- Claim **C9.** Decoding and re-encoding an NSN structure preserves the exact
order of its services (and, within each service, of its values) as given
in the input — not sorted, not reversed: the NSN request fixture, whose
services have types 4, 1, 2, 3 in that order, decodes to exactly that
service list and re-encodes to the original bytes; and the encoder always
emits the stored services in list order. -/
theorem c9_nsn_order :
    decodeNSN (nsnRequestBytes.drop 10) = .ok nsnRequest
    ∧ encodeNSN nsnRequest = nsnRequestBytes.drop 10
    ∧ nsnRequest.Services.map NSNService.NSType = [4, 1, 2, 3]
    ∧ ∀ n : TNSDataNSN, ∃ pre : List Nat,
        encodeNSN n = pre ++ (n.Services.map encodeNSNService).flatten := by
  refine ⟨by decide, by decide, by decide, ?_⟩
  intro n
  exact ⟨_, rfl⟩

/-- Claim **C9 witness.** The order-preservation shape of the encoder at the
request fixture. -/
theorem c9_nsn_order_witness :
    ∃ pre : List Nat, encodeNSN nsnRequest =
      pre ++ (nsnRequest.Services.map encodeNSNService).flatten :=
  c9_nsn_order.2.2.2 nsnRequest

/-! ## Decimal-digit lemmas for the version codec -/

/-- Value of a little-endian decimal digit list. -/
def digitsVal : List Nat → Nat
  | [] => 0
  | d :: ds => d + 10 * digitsVal ds

/-- Every entry produced by `toDigitsRev` is a decimal digit. -/
theorem toDigitsRev_lt :
    ∀ fuel n d, d ∈ toDigitsRev fuel n → d < 10 := by
  intro fuel
  induction fuel with
  | zero => intro n d h; simp [toDigitsRev] at h
  | succ f ih =>
    intro n d h
    cases n with
    | zero => simp [toDigitsRev] at h
    | succ m =>
      simp only [toDigitsRev, List.mem_cons] at h
      rcases h with h | h
      · omega
      · exact ih _ _ h

/-- With enough fuel, `toDigitsRev` represents its input exactly. -/
theorem digitsVal_toDigitsRev :
    ∀ fuel n, n ≤ fuel → digitsVal (toDigitsRev fuel n) = n := by
  intro fuel
  induction fuel with
  | zero =>
    intro n h
    have : n = 0 := by omega
    subst this
    rfl
  | succ f ih =>
    intro n h
    cases n with
    | zero => rfl
    | succ m =>
      have hdiv : (m + 1) / 10 ≤ f := by
        have := Nat.div_lt_self (Nat.succ_pos m) (by norm_num : 1 < 10)
        omega
      simp only [toDigitsRev, digitsVal, ih _ hdiv]
      omega

/-- A nonzero number has a nonempty digit list. -/
theorem toDigitsRev_ne_nil (n : Nat) (h : n ≠ 0) : toDigitsRev n n ≠ [] := by
  intro hnil
  have hval := digitsVal_toDigitsRev n n (le_refl n)
  rw [hnil] at hval
  exact h (by simpa [digitsVal] using hval.symm)

/-- Parsing the character of a digit returns the digit. -/
theorem parseDigit_digitChar (d : Nat) (h : d < 10) :
    parseDigit (digitChar d) = some d := by
  interval_cases d <;> decide

/-- Digit characters are never the dot separator. -/
theorem digitChar_ne_dot (d : Nat) (h : d < 10) : digitChar d ≠ '.' := by
  interval_cases d <;> decide

/-- Parsing a mapped digit list folds the digits into the accumulator. -/
theorem parseDigits_map :
    ∀ ds : List Nat, (∀ d ∈ ds, d < 10) → ∀ acc,
      parseDigits (ds.map digitChar) acc =
        some (ds.foldl (fun a d => a * 10 + d) acc) := by
  intro ds
  induction ds with
  | nil => intro _ acc; rfl
  | cons d ds ih =>
    intro h acc
    have hd : d < 10 := h d (List.mem_cons_self d ds)
    simp only [List.map_cons, parseDigits, parseDigit_digitChar d hd,
      List.foldl_cons]
    exact ih (fun x hx => h x (List.mem_cons_of_mem _ hx)) _

/-- Folding most-significant-first over reversed digits computes the
digit-list value shifted past the accumulator. -/
theorem foldl_reverse_digitsVal :
    ∀ (ds : List Nat) (acc : Nat),
      ds.reverse.foldl (fun a d => a * 10 + d) acc =
        acc * 10 ^ ds.length + digitsVal ds := by
  intro ds
  induction ds with
  | nil => intro acc; simp [digitsVal]
  | cons d ds ih =>
    intro acc
    simp only [List.reverse_cons, List.foldl_append, ih, List.foldl_cons,
      List.foldl_nil, digitsVal, List.length_cons]
    ring

/-- On a nonempty list, `parseNat` is the digit fold. -/
theorem parseNat_ne_nil (cs : List Char) (h : cs ≠ []) :
    parseNat cs = parseDigits cs 0 := by
  cases cs with
  | nil => exact absurd rfl h
  | cons c cs => rfl

/-- The decimal printer and parser are mutually inverse. -/
theorem parseNat_natToStrChars (n : Nat) :
    parseNat (natToStrChars n) = some n := by
  by_cases h : n = 0
  · subst h; decide
  · rw [natToStrChars, if_neg h]
    rw [parseNat_ne_nil _
      (by simp [List.map_eq_nil_iff, toDigitsRev_ne_nil n h])]
    rw [parseDigits_map _
      (fun x hx => toDigitsRev_lt n n x (List.mem_reverse.mp hx))]
    rw [foldl_reverse_digitsVal, digitsVal_toDigitsRev n n (le_refl n)]
    simp

/-- The decimal printer never emits the dot separator. -/
theorem natToStrChars_no_dot (n : Nat) : '.' ∉ natToStrChars n := by
  rw [natToStrChars]
  by_cases h : n = 0
  · rw [if_pos h]; decide
  · rw [if_neg h]
    intro hmem
    rw [List.mem_map] at hmem
    obtain ⟨d, hd, hEq⟩ := hmem
    exact digitChar_ne_dot d (toDigitsRev_lt n n d (List.mem_reverse.mp hd))
      hEq

/-- Splitting a dot-free list on dots yields the list itself. -/
theorem splitOnDot_no_dot :
    ∀ xs : List Char, '.' ∉ xs → splitOnDot xs = [xs] := by
  intro xs
  induction xs with
  | nil => intro _; rfl
  | cons c rest ih =>
    intro h
    have hc : ¬ c = '.' := fun hE => h (by rw [hE]; exact List.mem_cons_self _ _)
    simp only [splitOnDot, if_neg hc,
      ih (fun hm => h (List.mem_cons_of_mem _ hm))]

/-- Splitting at the first dot after a dot-free prefix peels the prefix. -/
theorem splitOnDot_append_dot :
    ∀ (xs ys : List Char), '.' ∉ xs →
      splitOnDot (xs ++ '.' :: ys) = xs :: splitOnDot ys := by
  intro xs
  induction xs with
  | nil => intro ys _; simp [splitOnDot]
  | cons c rest ih =>
    intro ys h
    have hc : ¬ c = '.' := fun hE => h (by rw [hE]; exact List.mem_cons_self _ _)
    simp only [List.cons_append, splitOnDot, List.append_eq, if_neg hc,
      ih ys (fun hm => h (List.mem_cons_of_mem _ hm))]

/-- Claim **C8.** Packing the dotted version string `"10.2.0.3.0"` into its
4-byte wire integer and unpacking returns `"10.2.0.3.0"` again, and the
packing is stable under repeated round-trips: packing the unpacking of any
32-bit packed value returns that same value. -/
theorem c8_version_roundtrip :
    decodeReleaseVersion (releaseVersionOf "10.2.0.3.0") = "10.2.0.3.0"
    ∧ encodeReleaseVersion "10.2.0.3.0" = .ok (releaseVersionOf "10.2.0.3.0")
    ∧ ∀ v : Nat, v < 4294967296 →
        encodeReleaseVersion (decodeReleaseVersion v) = .ok v := by
  refine ⟨by decide, by decide, ?_⟩
  intro v hv
  rw [encodeReleaseVersion]
  have hdata : (decodeReleaseVersion v).data =
      natToStrChars (v / 16777216) ++ '.' ::
        (natToStrChars (v / 1048576 % 16) ++ '.' ::
          (natToStrChars (v / 65536 % 16) ++ '.' ::
            (natToStrChars (v / 256 % 256) ++ '.' ::
              natToStrChars (v % 256)))) := by
    simp [decodeReleaseVersion, List.append_assoc]
  rw [hdata]
  rw [splitOnDot_append_dot _ _ (natToStrChars_no_dot _),
    splitOnDot_append_dot _ _ (natToStrChars_no_dot _),
    splitOnDot_append_dot _ _ (natToStrChars_no_dot _),
    splitOnDot_append_dot _ _ (natToStrChars_no_dot _),
    splitOnDot_no_dot _ (natToStrChars_no_dot _)]
  simp only [parseNat_natToStrChars]
  rw [if_pos ⟨by omega, by omega, by omega, by omega, by omega⟩]
  exact congrArg Except.ok (by omega)

/-- Claim **C8 witness.** Round-trip stability applied to the concrete packed
value `0x0A200300` of `"10.2.0.3.0"`. -/
theorem c8_version_roundtrip_witness :
    encodeReleaseVersion (decodeReleaseVersion 169870080) =
      .ok 169870080 :=
  c8_version_roundtrip.2.2 169870080 (by norm_num)

end TNS
